import Mathlib

/-!
Verification of the request/response normalization and error-sanitization
core of the mcp-gitlab server (files `errors.py`, `config.py`, `models.py`,
`client.py`).  Python strings are modelled as `List Char`; machine `int`
is modelled as `Int`; a fallible Python operation returns `Except`/`Option`.
-/

set_option maxRecDepth 10000

/-- Characters treated as whitespace by Python `str.strip` (ASCII range). -/
def isPyWs (c : Char) : Bool :=
  c = ' ' || c = '\t' || c = '\n' || c = '\r' || c = Char.ofNat 11 || c = Char.ofNat 12

/-- Python `str.strip()`: drop leading and trailing whitespace. -/
def pyStrip (s : List Char) : List Char :=
  ((s.dropWhile isPyWs).reverse.dropWhile isPyWs).reverse

/-- Decimal digits of a string, as a natural number; `none` when the string
is empty or holds a non-digit.  Helper for `pyInt`. -/
def digitsToNat (s : List Char) : Option Nat :=
  if s ≠ [] ∧ s.all Char.isDigit then
    some (s.foldl (fun acc c => acc * 10 + (c.toNat - 48)) 0)
  else none

/-- Python `int(str)`: strip whitespace, optional sign, then decimal digits;
`none` models the `ValueError` raised on any other input. -/
def pyInt (s : List Char) : Option Int :=
  match pyStrip s with
  | '+' :: rest => (digitsToNat rest).map Int.ofNat
  | '-' :: rest => (digitsToNat rest).map (fun n => -(n : Int))
  | t => (digitsToNat t).map Int.ofNat

/-- Uppercase hexadecimal digit, as used by `urllib.parse.quote`. -/
def hexDigit (n : Nat) : Char :=
  if n < 10 then Char.ofNat (48 + n) else Char.ofNat (55 + n)

/-- Percent-encoding of one ASCII character by `urllib.parse.quote(s, safe="")`:
the always-safe characters (letters, digits, `_`, `.`, `-`, `~`) stay, every
other character becomes `%XX` (the encoder is only applied to ASCII input here,
matching its call sites). -/
def quoteChar (c : Char) : List Char :=
  if c.isAlpha ∨ c.isDigit ∨ c ∈ ['_', '.', '-', '~'] then [c]
  else ['%', hexDigit (c.toNat / 16 % 16), hexDigit (c.toNat % 16)]

/-- Membership in the charset of `PROJECT_PATH_PATTERN = ^[a-zA-Z0-9\-_./]+$`. -/
def isPathChar (c : Char) : Bool :=
  c.isAlpha || c.isDigit || c = '-' || c = '_' || c = '.' || c = '/'

/-- Model of `models.encode_project_id` (`models.py` lines 39-67).  The error
value stands for the raised `ValueError` and carries its message (the Python
message quotes an example path; the quotes are elided here). -/
def encode_project_id (project_id : List Char) : Except (List Char) (List Char) :=
  if project_id = [] ∨ pyStrip project_id = [] then
    .error ("project_id must not be empty".data)
  else
    let t := pyStrip project_id
    if t.all Char.isDigit then .ok t
    else if t.all isPathChar then .ok (t.flatMap quoteChar)
    else .error (("project_id must be a numeric ID or a path like group/project " ++
      "(alphanumeric, hyphens, underscores, dots, and slashes only)").data)

/-- Model of `models.encode_group_id` (`models.py` lines 70-96); same logic as
`encode_project_id` with `group_id` wording in the messages. -/
def encode_group_id (group_id : List Char) : Except (List Char) (List Char) :=
  if group_id = [] ∨ pyStrip group_id = [] then
    .error ("group_id must not be empty".data)
  else
    let t := pyStrip group_id
    if t.all Char.isDigit then .ok t
    else if t.all isPathChar then .ok (t.flatMap quoteChar)
    else .error (("group_id must be a numeric ID or a path like group/subgroup " ++
      "(alphanumeric, hyphens, underscores, dots, and slashes only)").data)

/-- Fuel-driven worker for Python `str.replace`: scan left to right, replace
each leftmost non-overlapping occurrence of `pat`, keep other characters.
The fuel only serves structural termination; `fuel = s.length` suffices
because every step consumes at least one character of `s`. -/
def pyReplaceAux (pat rep : List Char) : Nat → List Char → List Char
  | _, [] => []
  | 0, s => s
  | fuel + 1, c :: rest =>
    if pat.isPrefixOf (c :: rest) then
      rep ++ pyReplaceAux pat rep fuel (rest.drop (pat.length - 1))
    else
      c :: pyReplaceAux pat rep fuel rest

/-- Python `s.replace(pat, rep)` for a non-empty `pat` (its only use in the
source, `errors.py` line 34, is guarded by `if token`); for `pat = []` this
model returns `s` unchanged. -/
def pyReplace (s pat rep : List Char) : List Char :=
  if pat = [] then s else pyReplaceAux pat rep s.length s

/-- The fixed mask substituted for the live token in `GitLabApiError.__init__`. -/
def tokenMask : List Char := "***".data

/-- The fixed text surrounding the sanitized message in
`f"GitLab API error (code): (message)"` (`errors.py` line 35). -/
def apiErrorHead (code : Nat) : List Char :=
  ("GitLab API error ".data) ++ (Nat.repr code).data ++ (": ".data)

/-- Model of `GitLabApiError.__init__` (`errors.py` lines 32-35): read the
`GITLAB_TOKEN` environment variable at construction time (`none` models an
unset variable), mask the message when that value is non-empty, and render
the stored exception text. -/
def renderApiError (envToken : Option (List Char)) (code : Nat)
    (message : List Char) : List Char :=
  let token := envToken.getD []
  let safe := if token ≠ [] then pyReplace message token tokenMask else message
  apiErrorHead code ++ safe

mutual
/-- JSON values as produced by `response.json()`. -/
inductive PyJson where
  | null : PyJson
  | bool : Bool → PyJson
  | int : Int → PyJson
  | str : List Char → PyJson
  | arr : PyArr → PyJson
  | obj : PyObj → PyJson

/-- A JSON array (a Python `list`). -/
inductive PyArr where
  | nil : PyArr
  | cons : PyJson → PyArr → PyArr

/-- A JSON object (a Python `dict` with string keys). -/
inductive PyObj where
  | nil : PyObj
  | cons : List Char → PyJson → PyObj → PyObj
end

/-- Build a JSON array from a Lean list of values. -/
def PyArr.ofList : List PyJson → PyArr
  | [] => .nil
  | x :: xs => .cons x (PyArr.ofList xs)

/-- Build a JSON object from a Lean association list. -/
def PyObj.ofList : List (List Char × PyJson) → PyObj
  | [] => .nil
  | (k, v) :: xs => .cons k v (PyObj.ofList xs)

/-- Python `dict.get(k)`: the value stored under a key, if any. -/
def PyObj.get? : PyObj → List Char → Option PyJson
  | .nil, _ => none
  | .cons k v rest, key => if k = key then some v else PyObj.get? rest key

/-- Number of entries of a JSON object. -/
def PyObj.length : PyObj → Nat
  | .nil => 0
  | .cons _ _ rest => 1 + PyObj.length rest

/-- Number of elements of a JSON array. -/
def PyArr.length : PyArr → Nat
  | .nil => 0
  | .cons _ rest => 1 + PyArr.length rest

mutual
/-- Python `repr` of a parsed JSON value: strings single-quoted, containers
rendered elementwise, `None`/`True`/`False` in Python spelling. -/
def pyReprJson : PyJson → List Char
  | .null => "None".data
  | .bool true => "True".data
  | .bool false => "False".data
  | .int n => (Int.repr n).data
  | .str s => Char.ofNat 39 :: s ++ [Char.ofNat 39]
  | .arr l => '[' :: pyReprArr l ++ [']']
  | .obj l => Char.ofNat 123 :: pyReprObj l ++ [Char.ofNat 125]

/-- Comma-joined `repr` of JSON array elements. -/
def pyReprArr : PyArr → List Char
  | .nil => []
  | .cons x .nil => pyReprJson x
  | .cons x rest => pyReprJson x ++ (", ".data) ++ pyReprArr rest

/-- Comma-joined `repr` of JSON object entries. -/
def pyReprObj : PyObj → List Char
  | .nil => []
  | .cons k v .nil =>
    (Char.ofNat 39 :: k ++ [Char.ofNat 39]) ++ (": ".data) ++ pyReprJson v
  | .cons k v rest =>
    (Char.ofNat 39 :: k ++ [Char.ofNat 39]) ++ (": ".data) ++ pyReprJson v ++
      (", ".data) ++ pyReprObj rest
end

/-- Python `str` of a parsed JSON value: a string renders as itself, every
other value via `repr`. -/
def pyStrJson (j : PyJson) : List Char :=
  match j with
  | .str s => s
  | other => pyReprJson other

/-- The closed set of exception kinds the core can raise, plus the builtin
`ValueError` that Python `int()` raises on a malformed numeral (`errors.py`;
`pyValueError` is not defined there but escapes from `client.py`). -/
inductive CoreErr where
  | configurationError : List Char → CoreErr
  | validationError : List Char → CoreErr
  | apiError : Nat → List Char → CoreErr
  | notFoundError : List Char → CoreErr
  | permissionDeniedError : List Char → CoreErr
  | rateLimitError : Option Int → CoreErr
  | pyValueError : List Char → CoreErr
deriving DecidableEq, Repr

/-- Whether an error value belongs to the six-kind taxonomy of `errors.py`
(everything except the builtin `ValueError`). -/
def isTaxonomyKind : CoreErr → Bool
  | .pyValueError _ => false
  | _ => true

/-- TLS verification policy resolved by `Config` (`config.py` lines 62-72):
full verification, disabled, or a custom CA bundle path. -/
inductive SslPolicy where
  | on : SslPolicy
  | off : SslPolicy
  | caBundle : List Char → SslPolicy
deriving DecidableEq, Repr

/-- Model of the TLS-policy resolution in `Config.__init__` (`config.py`
lines 62-72): `GITLAB_SSL_VERIFY` (lower-cased, default `"true"`) in
`("false", "0", "no")` disables verification; otherwise a non-empty
`SSL_CERT_FILE` is used as CA bundle; otherwise full verification. -/
def sslVerifyPolicy (sslVerifyEnv sslCertFile : Option (List Char)) : SslPolicy :=
  let v := (sslVerifyEnv.getD ("true".data)).map Char.toLower
  if v = ("false".data) ∨ v = ("0".data) ∨ v = ("no".data) then .off
  else
    match sslCertFile with
    | some p => if p ≠ [] then .caBundle p else .on
    | none => .on

/-- The state `Config.__init__` stores: the secret token, the validated base
URL, and the resolved TLS policy. -/
structure Config where
  token : List Char
  base_url : List Char
  ssl_verify : SslPolicy
deriving DecidableEq, Repr

/-- Model of `Config.__repr__` (`config.py` lines 105-107):
`f"Config(gitlab_url=(base_url), token=***)"`. -/
def reprConfig (c : Config) : List Char :=
  ("Config(gitlab_url=".data) ++ c.base_url ++ (", token=***)".data)

/-- Model of `Config.__str__` (`config.py` lines 109-111), textually identical
to `Config.__repr__`. -/
def strConfig (c : Config) : List Char :=
  ("Config(gitlab_url=".data) ++ c.base_url ++ (", token=***)".data)

/-- Model of `Config.api_base_url` (`config.py` lines 84-90). -/
def apiBaseUrl (c : Config) : List Char := c.base_url ++ ("/api/v4".data)

/-- The arguments `GitLabClient._get_client` passes to `httpx.AsyncClient`
(`client.py` lines 46-58). -/
structure ClientSettings where
  base_url : List Char
  privateTokenHeader : List Char
  contentTypeHeader : List Char
  timeoutSeconds : Nat
  verify : SslPolicy
deriving DecidableEq, Repr

/-- Model of the pool construction in `GitLabClient._get_client` (`client.py`
lines 46-58): base url from config, `PRIVATE-TOKEN` header from config,
30-second timeout, and the literal `verify=True` of line 56. -/
def buildClientSettings (cfg : Config) : ClientSettings :=
  { base_url := apiBaseUrl cfg
    privateTokenHeader := cfg.token
    contentTypeHeader := ("application/json".data)
    timeoutSeconds := 30
    verify := SslPolicy.on }

/-- `MAX_RESPONSE_SIZE` of `client.py` line 23. -/
def MAX_RESPONSE_SIZE : Nat := 10 * 1024 * 1024

/-- An HTTP response as seen by `GitLabClient._request`: status code, headers
(keys already lower-cased, as `httpx` normalizes them), raw body text, and
the result of `response.json()` (`none` models the `ValueError` of an
unparseable body). -/
structure HttpResponse where
  status : Nat
  headers : List (List Char × List Char)
  text : List Char
  jsonBody : Option PyJson

/-- `response.headers.get(k)`: first header with the given (lower-case) key. -/
def lookupHeader (r : HttpResponse) (k : List Char) : Option (List Char) :=
  (r.headers.find? (fun p => p.1 == k)).map (fun p => p.2)

/-- Python `needle in hay` on strings: substring containment. -/
def isSubstring (needle hay : List Char) : Bool :=
  match hay with
  | [] => needle.isEmpty
  | _ :: t => needle.isPrefixOf hay || isSubstring needle t

/-- The content-length ceiling check of `client.py` lines 105-108: a present,
non-empty (truthy) `content-length` header is parsed with `int()` and compared
to `MAX_RESPONSE_SIZE`. -/
def checkSize (r : HttpResponse) : Except CoreErr Unit :=
  match lookupHeader r ("content-length".data) with
  | some cl =>
    if cl ≠ [] then
      match pyInt cl with
      | some n => if n > (MAX_RESPONSE_SIZE : Int) then
          .error (.apiError 0 ("Response too large".data))
        else .ok ()
      | none => .error (.pyValueError cl)
    else .ok ()
  | none => .ok ()

/-- Message extraction of `_handle_error_response` (`client.py` lines 171-184):
`data.get("message", data.get("error"))` on a JSON object (any non-`None`
value is rendered with `str`), `str(data)` on any other parsed body, and the
first 200 characters of the raw text when the body is not parseable JSON. -/
def extractErrorMsg (r : HttpResponse) : List Char :=
  match r.jsonBody with
  | some (.obj fields) =>
    let raw : Option PyJson :=
      match fields.get? ("message".data) with
      | some v => some v
      | none => fields.get? ("error".data)
    match raw with
    | some .null => "Unknown error".data
    | some v => pyStrJson v
    | none => "Unknown error".data
  | some data => pyStrJson data
  | none => if r.text ≠ [] then r.text.take 200 else "Unknown error".data

/-- Status dispatch of `_handle_error_response` (`client.py` lines 186-196);
the error value carries the constructor arguments of the raised exception. -/
def classifyError (r : HttpResponse) : CoreErr :=
  let msg := extractErrorMsg r
  if r.status = 401 then .permissionDeniedError ("Valid Personal Access Token".data)
  else if r.status = 403 then .permissionDeniedError ("Required permission scope".data)
  else if r.status = 404 then .notFoundError msg
  else if r.status = 429 then
    match lookupHeader r ("retry-after".data) with
    | some v =>
      if v ≠ [] then
        match pyInt v with
        | some n => .rateLimitError (some n)
        | none => .pyValueError v
      else .rateLimitError none
    | none => .rateLimitError none
  else .apiError r.status msg

/-- The header/key table of `_wrap_list_response` (`client.py` lines 143-150). -/
def paginationPairs : List (List Char × List Char) :=
  [(("x-total".data), ("total".data)),
   (("x-total-pages".data), ("total_pages".data)),
   (("x-page".data), ("page".data)),
   (("x-per-page".data), ("per_page".data)),
   (("x-next-page".data), ("next_page".data)),
   (("x-prev-page".data), ("prev_page".data))]

/-- The pagination loop of `_wrap_list_response` (`client.py` lines 142-153):
for each table entry whose header is present and truthy, insert `int(value)`;
a malformed value raises `ValueError`. -/
def buildPagination (r : HttpResponse) :
    List (List Char × List Char) → Except CoreErr (List (List Char × PyJson))
  | [] => .ok []
  | (hdr, key) :: rest =>
    match lookupHeader r hdr with
    | some v =>
      if v ≠ [] then
        match pyInt v with
        | some n => (buildPagination r rest).map (fun l => (key, PyJson.int n) :: l)
        | none => .error (.pyValueError v)
      else buildPagination r rest
    | none => buildPagination r rest

/-- Model of `_wrap_list_response` (`client.py` lines 133-158): wrap the list
under `items` and attach the pagination mapping only when it is non-empty. -/
def wrapListResponse (r : HttpResponse) (data : PyArr) : Except CoreErr PyJson :=
  (buildPagination r paginationPairs).map (fun pag =>
    match pag with
    | [] => .obj (PyObj.ofList [(("items".data), .arr data)])
    | _ => .obj (PyObj.ofList
        [(("items".data), .arr data), (("pagination".data), .obj (PyObj.ofList pag))]))

/-- Model of the response half of `GitLabClient._request` (`client.py` lines
105-131): size ceiling, error classification for non-2xx statuses, the
text/plain short-circuit, JSON parsing, and list wrapping; a non-list,
non-object body is returned unchanged (line 131). -/
def requestNormalize (r : HttpResponse) : Except CoreErr PyJson :=
  match checkSize r with
  | .error e => .error e
  | .ok _ =>
    if 200 ≤ r.status ∧ r.status < 300 then
      let contentType := (lookupHeader r ("content-type".data)).getD []
      if isSubstring ("text/plain".data) contentType then
        .ok (.obj (PyObj.ofList [(("content".data), .str r.text)]))
      else
        match r.jsonBody with
        | none => .error (.apiError r.status ("Invalid JSON response".data))
        | some (.arr l) => wrapListResponse r l
        | some (.obj o) => .ok (.obj o)
        | some other => .ok other
    else .error (classifyError r)

/-- Modelled from the spec (§3 Pagination Info, claim C8), for comparison with
`buildPagination`: "a mapping of at most six optional integer fields populated
only from headers that were actually present and non-empty; absent headers are
omitted, never defaulted to zero/null". -/
def specPagination (r : HttpResponse) : List (List Char × PyJson) :=
  paginationPairs.filterMap (fun p =>
    match lookupHeader r p.1 with
    | some v =>
      if v ≠ [] then
        match pyInt v with
        | some n => some (p.2, PyJson.int n)
        | none => none
      else none
    | none => none)

/-! ## Helper lemmas -/

/-- A non-empty prefix of the output of the replacement scan whose characters
avoid the replacement text is already a prefix of the input. -/
theorem prefix_of_pyReplaceAux_prefix (pat rep : List Char) (hr : rep ≠ []) :
    ∀ (fuel : Nat) (s q : List Char), q ≠ [] → (∀ c ∈ q, c ∉ rep) →
      q <+: pyReplaceAux pat rep fuel s → q <+: s := by
  intro fuel
  induction fuel with
  | zero =>
    intro s q hq _ hpre
    cases s with
    | nil =>
      simp only [pyReplaceAux] at hpre
      exact absurd (List.prefix_nil.mp hpre) hq
    | cons c rest => simpa [pyReplaceAux] using hpre
  | succ fuel ih =>
    intro s q hq hav hpre
    cases s with
    | nil =>
      simp only [pyReplaceAux] at hpre
      exact absurd (List.prefix_nil.mp hpre) hq
    | cons c rest =>
      by_cases hm : pat.isPrefixOf (c :: rest)
      · simp only [pyReplaceAux, hm, if_pos] at hpre
        cases q with
        | nil => exact absurd rfl hq
        | cons q0 q' =>
          cases rep with
          | nil => exact absurd rfl hr
          | cons r0 rep' =>
            obtain ⟨t, ht⟩ := hpre
            simp only [List.cons_append, List.cons.injEq] at ht
            exact absurd (List.mem_cons_self r0 rep')
              (ht.1 ▸ hav q0 (List.mem_cons_self q0 q'))
      · simp only [pyReplaceAux, hm, if_neg, Bool.false_eq_true, not_false_iff] at hpre
        cases q with
        | nil => exact absurd rfl hq
        | cons q0 q' =>
          obtain ⟨t, ht⟩ := hpre
          simp only [List.cons_append, List.cons.injEq] at ht
          cases q' with
          | nil => exact ⟨rest, by simp [ht.1]⟩
          | cons q1 q'' =>
            have h2 : (q1 :: q'') <+: pyReplaceAux pat rep fuel rest := ⟨t, ht.2⟩
            have h3 : (q1 :: q'') <+: rest :=
              ih rest (q1 :: q'') (by simp)
                (fun c hc => hav c (List.mem_cons_of_mem q0 hc)) h2
            obtain ⟨u, hu⟩ := h3
            exact ⟨u, by simp [ht.1, ← hu]⟩

/-- An occurrence of a pattern that avoids the characters of `rep` cannot
start inside a prepended copy of `rep`. -/
theorem infix_of_infix_append_left (pat rep X : List Char) (hp : pat ≠ [])
    (hd : ∀ c ∈ pat, c ∉ rep) (h : pat <:+: rep ++ X) : pat <:+: X := by
  induction rep with
  | nil => simpa using h
  | cons r0 rep' ih =>
    rw [List.cons_append, List.infix_cons_iff] at h
    rcases h with h | h
    · cases pat with
      | nil => exact absurd rfl hp
      | cons p0 p' =>
        obtain ⟨t, ht⟩ := h
        simp only [List.cons_append, List.cons.injEq] at ht
        exact absurd (List.mem_cons_self r0 rep')
          (ht.1 ▸ hd p0 (List.mem_cons_self p0 p'))
    · exact ih (fun c hc hm => hd c hc (List.mem_cons_of_mem r0 hm)) h

/-- With enough fuel, the replacement scan leaves no occurrence of a
non-empty pattern that shares no character with the replacement text. -/
theorem pyReplaceAux_no_occurrence (pat rep : List Char) (hp : pat ≠ [])
    (hr : rep ≠ []) (hd : ∀ c ∈ pat, c ∉ rep) :
    ∀ (fuel : Nat) (s : List Char), s.length ≤ fuel →
      ¬ pat <:+: pyReplaceAux pat rep fuel s := by
  intro fuel
  induction fuel with
  | zero =>
    intro s hlen hinf
    have hs : s = [] := List.length_eq_zero.mp (Nat.le_zero.mp hlen)
    subst hs
    simp only [pyReplaceAux] at hinf
    exact hp (List.infix_nil.mp hinf)
  | succ fuel ih =>
    intro s hlen hinf
    cases s with
    | nil =>
      simp only [pyReplaceAux] at hinf
      exact hp (List.infix_nil.mp hinf)
    | cons c rest =>
      have hrest : rest.length ≤ fuel := by
        simpa using Nat.le_of_succ_le_succ hlen
      by_cases hm : pat.isPrefixOf (c :: rest)
      · simp only [pyReplaceAux, hm, if_pos] at hinf
        have h2 := infix_of_infix_append_left pat rep _ hp hd hinf
        have hlen2 : (rest.drop (pat.length - 1)).length ≤ fuel :=
          le_trans (by simp) hrest
        exact ih (rest.drop (pat.length - 1)) hlen2 h2
      · simp only [pyReplaceAux, hm, if_neg, Bool.false_eq_true, not_false_iff] at hinf
        rw [List.infix_cons_iff] at hinf
        rcases hinf with h | h
        · have h2 : pat <+: pyReplaceAux pat rep (fuel + 1) (c :: rest) := by
            simpa [pyReplaceAux, hm] using h
          have h3 := prefix_of_pyReplaceAux_prefix pat rep hr (fuel + 1)
            (c :: rest) pat hp hd h2
          exact hm (List.isPrefixOf_iff_prefix.mpr h3)
        · exact ih rest hrest h

/-- The replacement of a non-empty, mask-free token by `"***"` leaves no
occurrence of the token. -/
theorem pyReplace_removes_token (m tok : List Char) (h1 : tok ≠ [])
    (h2 : '*' ∉ tok) : ¬ tok <:+: pyReplace m tok tokenMask := by
  unfold pyReplace
  rw [if_neg h1]
  have hd : ∀ c ∈ tok, c ∉ tokenMask := by
    intro c hc hm
    have hc' : c = '*' := by simpa [tokenMask] using hm
    exact h2 (hc' ▸ hc)
  exact pyReplaceAux_no_occurrence tok tokenMask h1 (by decide) hd m.length m
    (le_refl _)

/-! ## Claim theorems -/

/-- C1 (counterexample): with the live token `"G"` (non-empty) and message
`"hello"`, the rendered text of `GitLabApiError(0, "hello")` does contain an
occurrence of the token (the `G` of the fixed template `"GitLab API error"`),
refuting the claim that the rendered text never contains the token. -/
theorem c1_counterexample :
    ("G".data) ≠ [] ∧
      ("G".data) <:+: renderApiError (some ("G".data)) 0 ("hello".data) := by
  exact ⟨by decide, by decide⟩

/-- C1 (amended): for every code, message and non-empty live token, the
rendered text is the fixed template followed by the message with every literal
occurrence of the token replaced by the mask `"***"`; the masked message
itself contains no occurrence of the token whenever the token does not
contain the mask character `*`. -/
theorem c1_api_error_masking (code : Nat) (m tok : List Char)
    (h1 : tok ≠ []) (h2 : '*' ∉ tok) :
    renderApiError (some tok) code m =
      apiErrorHead code ++ pyReplace m tok tokenMask ∧
    ¬ tok <:+: pyReplace m tok tokenMask := by
  refine ⟨?_, pyReplace_removes_token m tok h1 h2⟩
  simp [renderApiError, h1]

/-- C1 (witness): the amended masking property evaluated at the token
`"secret"` and the message `"my secret message"`. -/
theorem c1_api_error_masking_witness :
    renderApiError (some ("secret".data)) 502 ("my secret message".data) =
      apiErrorHead 502 ++
        pyReplace ("my secret message".data) ("secret".data) tokenMask ∧
    ¬ ("secret".data) <:+:
        pyReplace ("my secret message".data) ("secret".data) tokenMask :=
  c1_api_error_masking 502 ("my secret message".data) ("secret".data)
    (by decide) (by decide)

/-- C10: `GitLabApiError` reads the token from the environment value passed at
construction time; when that value is unset or empty, no masking happens and
the message is embedded verbatim, so any substring of the message (for
example a token previously captured by `Config`) survives into the rendered
text. -/
theorem c10_env_token_read_at_construction (env : Option (List Char))
    (code : Nat) (m : List Char) (h : env.getD [] = []) :
    renderApiError env code m = apiErrorHead code ++ m ∧
    ∀ t : List Char, t <:+: m → t <:+: renderApiError env code m := by
  have h1 : renderApiError env code m = apiErrorHead code ++ m := by
    simp [renderApiError, h]
  refine ⟨h1, fun t ht => ?_⟩
  rw [h1]
  obtain ⟨u, v, huv⟩ := ht
  exact ⟨apiErrorHead code ++ u, v, by rw [← huv]; simp⟩

/-- C10 (witness): with `GITLAB_TOKEN` unset, a message holding the token
`"glpat-abc"` captured earlier is rendered verbatim, token included. -/
theorem c10_env_token_read_at_construction_witness :
    renderApiError none 500 ("glpat-abc leaked".data) =
      apiErrorHead 500 ++ ("glpat-abc leaked".data) ∧
    ("glpat-abc".data) <:+: renderApiError none 500 ("glpat-abc leaked".data) :=
  ⟨(c10_env_token_read_at_construction none 500 ("glpat-abc leaked".data)
      (by decide)).1,
   (c10_env_token_read_at_construction none 500 ("glpat-abc leaked".data)
      (by decide)).2 ("glpat-abc".data) (by decide)⟩
/-- C9 (counterexample): two configurations that differ only in the token,
one of them with token `"Config"`, have identical representations, yet that
representation contains an occurrence of the token `"Config"` (from the fixed
template), refuting the claim that the rendered text contains no occurrence
of either token. -/
theorem c9_counterexample :
    (Config.mk ("Config".data) ("https://gitlab.com".data) .on).token ≠
      (Config.mk ("zz".data) ("https://gitlab.com".data) .on).token ∧
    reprConfig (Config.mk ("Config".data) ("https://gitlab.com".data) .on) =
      reprConfig (Config.mk ("zz".data) ("https://gitlab.com".data) .on) ∧
    strConfig (Config.mk ("Config".data) ("https://gitlab.com".data) .on) =
      strConfig (Config.mk ("zz".data) ("https://gitlab.com".data) .on) ∧
    ("Config".data) <:+:
      reprConfig (Config.mk ("Config".data) ("https://gitlab.com".data) .on) := by
  exact ⟨by decide, rfl, rfl, by decide⟩

/-- C9 (amended): the textual and debug representations of a configuration
are identical and independent of the stored token (they are functions of the
base URL alone); consequently a token can only appear in them when it already
occurs in that token-independent text. -/
theorem c9_repr_token_independent (u t1 t2 : List Char) (p : SslPolicy) :
    reprConfig (Config.mk t1 u p) = reprConfig (Config.mk t2 u p) ∧
    strConfig (Config.mk t1 u p) = strConfig (Config.mk t2 u p) ∧
    strConfig (Config.mk t1 u p) = reprConfig (Config.mk t1 u p) ∧
    (¬ t1 <:+: reprConfig (Config.mk t2 u p) →
      ¬ t1 <:+: reprConfig (Config.mk t1 u p)) :=
  ⟨rfl, rfl, rfl, fun h => h⟩

/-- C9 (witness): token independence of the representations at two concrete
tokens, the representation containing neither. -/
theorem c9_repr_token_independent_witness :
    reprConfig (Config.mk ("tokA".data) ("https://gitlab.com".data) .on) =
      reprConfig (Config.mk ("tokB".data) ("https://gitlab.com".data) .on) ∧
    ¬ ("tokA".data) <:+:
      reprConfig (Config.mk ("tokA".data) ("https://gitlab.com".data) .on) :=
  ⟨(c9_repr_token_independent ("https://gitlab.com".data) ("tokA".data)
      ("tokB".data) .on).1,
   (c9_repr_token_independent ("https://gitlab.com".data) ("tokA".data)
      ("tokB".data) .on).2.2.2 (by decide)⟩

/-- C3 (code divergence): resolving the policy with `GITLAB_SSL_VERIFY=false`
yields the disabled policy, yet the connection pool is always built with full
verification (`verify=True`, `client.py` line 56), so the pool's verify
setting differs from the configuration's resolved value. -/
theorem c3_client_ignores_ssl_policy :
    sslVerifyPolicy (some ("false".data)) none = SslPolicy.off ∧
    (buildClientSettings (Config.mk ("t".data) ("https://gitlab.example".data)
        (sslVerifyPolicy (some ("false".data)) none))).verify = SslPolicy.on ∧
    SslPolicy.on ≠ SslPolicy.off ∧
    ∀ cfg : Config, (buildClientSettings cfg).verify = SslPolicy.on :=
  ⟨by decide, by decide, by decide, fun _ => rfl⟩

/-- C4 (code divergence): a 204 No Content response with content-type
text/plain and empty body (the repository's own test input for deletion)
normalizes to the mapping with a single `content` key holding the empty
string — not to the mapping with `status = deleted` the tests expect (there
is no `status` key at all) — and a scalar JSON body is returned unchanged,
not wrapped into a mapping. -/
theorem c4_no_special_204_and_scalar_passthrough :
    requestNormalize
        (HttpResponse.mk 204 [(("content-type".data), ("text/plain".data))]
          [] none) =
      .ok (.obj (PyObj.ofList [(("content".data), .str [])])) ∧
    (PyObj.ofList [(("content".data), .str [])]).get? ("status".data) = none ∧
    requestNormalize (HttpResponse.mk 200 [] ("5".data) (some (.int 5))) =
      .ok (.int 5) ∧
    ∀ o : PyObj, PyJson.int 5 ≠ PyJson.obj o :=
  ⟨rfl, rfl, rfl, fun _ h => PyJson.noConfusion h⟩

/-- C7: any response whose `content-length` header declares a value above the
10 MiB ceiling is rejected as `ApiError` with code 0, before body parsing and
before status classification, whatever its status, headers, text and body. -/
theorem c7_size_ceiling (r : HttpResponse) (cl : List Char) (n : Int)
    (h1 : lookupHeader r ("content-length".data) = some cl)
    (h2 : pyInt cl = some n) (h3 : n > 10485760) :
    requestNormalize r = .error (.apiError 0 ("Response too large".data)) := by
  have hcl : cl ≠ [] := by
    intro h
    rw [h] at h2
    simp [pyInt, pyStrip, digitsToNat] at h2
  have hmax : ((MAX_RESPONSE_SIZE : Nat) : Int) = 10485760 := by
    norm_num [MAX_RESPONSE_SIZE]
  have hc : checkSize r = .error (.apiError 0 ("Response too large".data)) := by
    unfold checkSize
    rw [h1]
    simp only [h2, hcl, ne_eq, not_false_iff, if_true]
    rw [if_pos]
    rw [hmax]
    exact h3
  unfold requestNormalize
  rw [hc]

/-- C7 (witness): a response declaring 20,000,000 bytes is rejected as
`ApiError(0)` even though its status is 200 and its body is valid JSON. -/
theorem c7_size_ceiling_witness :
    requestNormalize
        (HttpResponse.mk 200 [(("content-length".data), ("20000000".data))]
          ("ok".data) (some (.obj .nil))) =
      .error (.apiError 0 ("Response too large".data)) :=
  c7_size_ceiling
    (HttpResponse.mk 200 [(("content-length".data), ("20000000".data))]
      ("ok".data) (some (.obj .nil)))
    ("20000000".data) 20000000 (by decide) (by decide) (by decide)

/-- C6: for responses passing the size check, the status dispatches exactly to
the taxonomy error of `_handle_error_response` — 401/403 to permission
denials with the fixed scope texts, 404 to the not-found error carrying the
extracted message, 429 to the rate-limit error carrying the parsed
`retry-after` value (unset when the header is absent), any other 4xx/5xx to
`ApiError` with the status and extracted message — where the extracted
message prefers a `message` field, then an `error` field, and falls back to
the first 200 characters of raw text for an unparseable body. -/
theorem c6_error_classification (r : HttpResponse)
    (hsize : checkSize r = .ok ()) :
    (r.status = 401 → requestNormalize r =
      .error (.permissionDeniedError ("Valid Personal Access Token".data))) ∧
    (r.status = 403 → requestNormalize r =
      .error (.permissionDeniedError ("Required permission scope".data))) ∧
    (r.status = 404 → requestNormalize r =
      .error (.notFoundError (extractErrorMsg r))) ∧
    (r.status = 429 → lookupHeader r ("retry-after".data) = none →
      requestNormalize r = .error (.rateLimitError none)) ∧
    (r.status = 429 → ∀ v n, lookupHeader r ("retry-after".data) = some v →
      pyInt v = some n →
      requestNormalize r = .error (.rateLimitError (some n))) ∧
    (400 ≤ r.status → r.status ≤ 599 → r.status ≠ 401 → r.status ≠ 403 →
      r.status ≠ 404 → r.status ≠ 429 →
      requestNormalize r = .error (.apiError r.status (extractErrorMsg r))) ∧
    (∀ fields m, r.jsonBody = some (.obj fields) →
      fields.get? ("message".data) = some (.str m) → extractErrorMsg r = m) ∧
    (∀ fields m, r.jsonBody = some (.obj fields) →
      fields.get? ("message".data) = none →
      fields.get? ("error".data) = some (.str m) → extractErrorMsg r = m) ∧
    (r.jsonBody = none → r.text ≠ [] → extractErrorMsg r = r.text.take 200) := by
  have hkey : ∀ _ : ¬ (200 ≤ r.status ∧ r.status < 300),
      requestNormalize r = .error (classifyError r) := by
    intro hs
    simp only [requestNormalize, hsize]
    rw [if_neg hs]
  refine ⟨?_, ?_, ?_, ?_, ?_, ?_, ?_, ?_, ?_⟩
  · intro h
    rw [hkey (by omega)]
    simp [classifyError, h]
  · intro h
    rw [hkey (by omega)]
    simp [classifyError, h]
  · intro h
    rw [hkey (by omega)]
    simp [classifyError, h]
  · intro h hra
    rw [hkey (by omega)]
    simp [classifyError, h, hra]
  · intro h v n hra hv
    rw [hkey (by omega)]
    have hvne : v ≠ [] := by
      intro he
      rw [he] at hv
      simp [pyInt, pyStrip, digitsToNat] at hv
    simp [classifyError, h, hra, hvne, hv]
  · intro hlo hhi h1 h2 h3 h4
    rw [hkey (by omega)]
    simp [classifyError, h1, h2, h3, h4]
  · intro fields m hj hm
    simp [extractErrorMsg, hj, hm, pyStrJson]
  · intro fields m hj hm he
    simp [extractErrorMsg, hj, hm, he, pyStrJson]
  · intro hj ht
    simp [extractErrorMsg, hj, ht]

/-- C6 (witness): a 404 response whose body carries `message = "404 Project
Not Found"` raises the not-found error with exactly that message. -/
theorem c6_error_classification_witness :
    requestNormalize
        (HttpResponse.mk 404 []
          ("irrelevant".data)
          (some (.obj (PyObj.ofList
            [(("message".data), .str ("404 Project Not Found".data))])))) =
      .error (.notFoundError ("404 Project Not Found".data)) := by
  have h := c6_error_classification
    (HttpResponse.mk 404 []
      ("irrelevant".data)
      (some (.obj (PyObj.ofList
        [(("message".data), .str ("404 Project Not Found".data))]))))
    rfl
  rw [h.2.2.1 rfl]
  rw [h.2.2.2.2.2.2.1 (PyObj.ofList
    [(("message".data), .str ("404 Project Not Found".data))])
    ("404 Project Not Found".data) rfl rfl]

/-- When every present, non-empty pagination header parses as an integer, the
pagination loop succeeds and produces exactly the entries of the present,
non-empty headers in table order. -/
theorem buildPagination_parses (r : HttpResponse) :
    ∀ ps : List (List Char × List Char),
      (∀ p ∈ ps, ∀ v, lookupHeader r p.1 = some v → v ≠ [] → (pyInt v).isSome) →
      buildPagination r ps = .ok (ps.filterMap (fun p =>
        match lookupHeader r p.1 with
        | some v =>
          if v ≠ [] then
            match pyInt v with
            | some n => some (p.2, PyJson.int n)
            | none => none
          else none
        | none => none)) := by
  intro ps
  induction ps with
  | nil => intro _; rfl
  | cons p rest ih =>
    intro hp
    obtain ⟨hdr, key⟩ := p
    have hrest := ih (fun q hq => hp q (List.mem_cons_of_mem _ hq))
    simp only [buildPagination, List.filterMap_cons]
    cases hl : lookupHeader r hdr with
    | none => simpa [hl] using hrest
    | some v =>
      by_cases hv : v = []
      · subst hv
        simpa using hrest
      · have hs := hp (hdr, key) (List.mem_cons_self _ _) v hl hv
        cases hpi : pyInt v with
        | none => rw [hpi] at hs; simp at hs
        | some n => simp [hv, hpi, hrest, Except.map]

/-- When the `retry-after` header parses whenever present and non-empty, the
status classifier only produces taxonomy kinds (never a builtin
`ValueError`). -/
theorem classifyError_taxonomy (r : HttpResponse)
    (hra : ∀ v, lookupHeader r ("retry-after".data) = some v → v ≠ [] →
      (pyInt v).isSome) :
    isTaxonomyKind (classifyError r) = true := by
  unfold classifyError
  by_cases h1 : r.status = 401
  · simp [h1, isTaxonomyKind]
  by_cases h2 : r.status = 403
  · simp [h1, h2, isTaxonomyKind]
  by_cases h3 : r.status = 404
  · simp [h1, h2, h3, isTaxonomyKind]
  by_cases h4 : r.status = 429
  · simp only [h1, h2, h3, h4, if_neg, if_pos, if_false, if_true]
    cases hl : lookupHeader r ("retry-after".data) with
    | none => simp [isTaxonomyKind]
    | some v =>
      by_cases hv : v = []
      · simp [hv, isTaxonomyKind]
      · have hs := hra v hl hv
        cases hpi : pyInt v with
        | none => rw [hpi] at hs; simp at hs
        | some n => simp [hv, hpi, isTaxonomyKind]
  · simp [h1, h2, h3, h4, isTaxonomyKind]

/-- C5 (counterexample): a 200 response carrying the non-integer header
`content-length: abc` makes the request path surface the builtin
`ValueError` of `int()`, which is not one of the six taxonomy kinds. -/
theorem c5_counterexample :
    requestNormalize
        (HttpResponse.mk 200 [(("content-length".data), ("abc".data))] [] none) =
      .error (.pyValueError ("abc".data)) ∧
    isTaxonomyKind (.pyValueError ("abc".data)) = false :=
  ⟨rfl, rfl⟩

/-- C5 (amended): every failure of the request/normalization path is one of
the six taxonomy kinds provided the `content-length`, `retry-after` and
pagination header values are integer-parseable whenever present and
non-empty; and the identifier encoders do fail on charset-invalid input,
but with a plain builtin `ValueError` (modelled by the `Except` error of
`encode_project_id`), not with the taxonomy `ValidationError` class. -/
theorem c5_failure_taxonomy (r : HttpResponse)
    (hcl : ∀ v, lookupHeader r ("content-length".data) = some v → v ≠ [] →
      (pyInt v).isSome)
    (hra : ∀ v, lookupHeader r ("retry-after".data) = some v → v ≠ [] →
      (pyInt v).isSome)
    (hpg : ∀ p ∈ paginationPairs, ∀ v, lookupHeader r p.1 = some v → v ≠ [] →
      (pyInt v).isSome) :
    (∀ e, requestNormalize r = .error e → isTaxonomyKind e = true) ∧
    (∃ msg, encode_project_id ("group/project; rm -rf /".data) = .error msg) ∧
    (∃ msg, encode_group_id ("group/project; rm -rf /".data) = .error msg) := by
  refine ⟨?_, ⟨_, rfl⟩, ⟨_, rfl⟩⟩
  have hsz : checkSize r = .ok () ∨
      checkSize r = .error (.apiError 0 ("Response too large".data)) := by
    unfold checkSize
    cases hl : lookupHeader r ("content-length".data) with
    | none => left; rfl
    | some v =>
      by_cases hv : v = []
      · subst hv; left; simp
      · have hs := hcl v hl hv
        cases hpi : pyInt v with
        | none => rw [hpi] at hs; simp at hs
        | some n =>
          by_cases hn : n > (MAX_RESPONSE_SIZE : Int)
          · right; simp [hv, hpi, hn]
          · left; simp [hv, hpi, hn]
  intro e he
  rcases hsz with h | h
  · simp only [requestNormalize, h] at he
    by_cases hs : 200 ≤ r.status ∧ r.status < 300
    · rw [if_pos hs] at he
      by_cases ht : isSubstring ("text/plain".data)
          ((lookupHeader r ("content-type".data)).getD []) = true
      · rw [if_pos ht] at he
        exact Except.noConfusion he
      · rw [if_neg ht] at he
        cases hj : r.jsonBody with
        | none =>
          simp only [hj, Except.error.injEq] at he
          rw [← he]
          rfl
        | some data =>
          simp only [hj] at he
          cases data with
          | arr l =>
            simp only [wrapListResponse,
              buildPagination_parses r paginationPairs hpg] at he
            cases hpag : List.filterMap (fun p =>
                match lookupHeader r p.1 with
                | some v =>
                  if v ≠ [] then
                    match pyInt v with
                    | some n => some (p.2, PyJson.int n)
                    | none => none
                  else none
                | none => none) paginationPairs with
            | nil =>
              rw [hpag] at he
              exact Except.noConfusion he
            | cons q qs =>
              rw [hpag] at he
              exact Except.noConfusion he
          | obj o => exact Except.noConfusion he
          | null => exact Except.noConfusion he
          | bool b => exact Except.noConfusion he
          | int n => exact Except.noConfusion he
          | str s => exact Except.noConfusion he
    · rw [if_neg hs] at he
      simp only [Except.error.injEq] at he
      rw [← he]
      exact classifyError_taxonomy r hra
  · simp only [requestNormalize, h, Except.error.injEq] at he
    rw [← he]
    rfl

/-- C5 (witness): the amended taxonomy property at a concrete 500 response
with well-formed headers, whose failure is a plain `ApiError`. -/
theorem c5_failure_taxonomy_witness :
    isTaxonomyKind (.apiError 500 ("boom".data)) = true ∧
    (∃ msg, encode_project_id ("group/project; rm -rf /".data) = .error msg) := by
  have h := c5_failure_taxonomy
    (HttpResponse.mk 500 [] ("boom".data) (some (.str ("boom".data))))
    (by intro v hv; exact absurd hv (by simp [lookupHeader]))
    (by intro v hv; exact absurd hv (by simp [lookupHeader]))
    (by intro p hp v hv; exact absurd hv (by simp [lookupHeader]))
  exact ⟨h.1 (.apiError 500 ("boom".data)) rfl, h.2.1⟩

/-- C8: the pagination mapping equals the specification mapping — populated
only from present, non-empty headers, each parsed as an integer, with absent
or empty headers omitted — the `pagination` key itself is omitted when no
entry exists, and the concrete two-element example with `x-total: 2`,
`x-page: 1`, `x-per-page: 20` yields exactly two items and exactly the
pagination entries `total = 2, page = 1, per_page = 20`, with no
`total_pages`, `next_page` or `prev_page` keys. -/
theorem c8_pagination (r : HttpResponse) (l : PyArr)
    (hpg : ∀ p ∈ paginationPairs, ∀ v, lookupHeader r p.1 = some v → v ≠ [] →
      (pyInt v).isSome) :
    buildPagination r paginationPairs = .ok (specPagination r) ∧
    (checkSize r = .ok () → 200 ≤ r.status → r.status < 300 →
      isSubstring ("text/plain".data)
        ((lookupHeader r ("content-type".data)).getD []) = false →
      r.jsonBody = some (.arr l) →
      requestNormalize r = .ok (
        match specPagination r with
        | [] => .obj (PyObj.ofList [(("items".data), .arr l)])
        | pag => .obj (PyObj.ofList
            [(("items".data), .arr l),
             (("pagination".data), .obj (PyObj.ofList pag))]))) ∧
    requestNormalize (HttpResponse.mk 200
        [(("content-type".data), ("application/json".data)),
         (("x-total".data), ("2".data)),
         (("x-page".data), ("1".data)),
         (("x-per-page".data), ("20".data))]
        ("[]".data)
        (some (.arr (PyArr.ofList
          [.obj (PyObj.ofList [(("id".data), .int 1)]),
           .obj (PyObj.ofList [(("id".data), .int 2)])])))) =
      .ok (.obj (PyObj.ofList
        [(("items".data), .arr (PyArr.ofList
          [.obj (PyObj.ofList [(("id".data), .int 1)]),
           .obj (PyObj.ofList [(("id".data), .int 2)])])),
         (("pagination".data), .obj (PyObj.ofList
            [(("total".data), .int 2), (("page".data), .int 1),
             (("per_page".data), .int 20)]))])) ∧
    (PyArr.ofList
      [.obj (PyObj.ofList [(("id".data), .int 1)]),
       .obj (PyObj.ofList [(("id".data), .int 2)])]).length = 2 ∧
    (PyObj.ofList
      [(("total".data), .int 2), (("page".data), .int 1),
       (("per_page".data), .int 20)]).get? ("total_pages".data) = none ∧
    (PyObj.ofList
      [(("total".data), .int 2), (("page".data), .int 1),
       (("per_page".data), .int 20)]).get? ("next_page".data) = none ∧
    (PyObj.ofList
      [(("total".data), .int 2), (("page".data), .int 1),
       (("per_page".data), .int 20)]).get? ("prev_page".data) = none := by
  have h1 : buildPagination r paginationPairs = .ok (specPagination r) := by
    rw [buildPagination_parses r paginationPairs hpg]
    rfl
  refine ⟨h1, ?_, rfl, rfl, rfl, rfl, rfl⟩
  intro hsz hlo hhi hct hj
  simp only [requestNormalize, hsz]
  rw [if_pos ⟨hlo, hhi⟩]
  rw [if_neg (by simp [hct])]
  simp only [hj, wrapListResponse, h1]
  cases hsp : specPagination r with
  | nil => simp [Except.map]
  | cons q qs => simp [Except.map]

/-- C8 (witness): the pagination refinement applied to a response bearing no
pagination headers at all, whose normalized value then has no `pagination`
key. -/
theorem c8_pagination_witness :
    requestNormalize (HttpResponse.mk 200
        [(("content-type".data), ("application/json".data))]
        ("[]".data) (some (.arr .nil))) =
      .ok (.obj (PyObj.ofList [(("items".data), .arr .nil)])) := by
  have h := c8_pagination
    (HttpResponse.mk 200
      [(("content-type".data), ("application/json".data))]
      ("[]".data) (some (.arr .nil)))
    .nil
    (by
      intro p hp v hv
      simp only [paginationPairs, List.mem_cons,
        List.not_mem_nil, or_false] at hp
      rcases hp with rfl | rfl | rfl | rfl | rfl | rfl <;>
        exact absurd hv (by intro h; exact Option.noConfusion h))
  have h2 := h.2.1 rfl (by decide) (by decide) rfl rfl
  simpa using h2

/-- A string of decimal digits is left unchanged by the percent-encoder
(digits belong to the always-safe set of `quote`). -/
theorem flatMap_quoteChar_digits (t : List Char) (h : t.all Char.isDigit) :
    t.flatMap quoteChar = t := by
  induction t with
  | nil => rfl
  | cons c rest ih =>
    simp only [List.all_cons, Bool.and_eq_true] at h
    have hc : quoteChar c = [c] := by
      unfold quoteChar
      rw [if_pos (Or.inr (Or.inl h.1))]
    simp [hc, ih h.2]

/-- On the path charset, the percent-encoder sends `/` to `%2F` and leaves
every other character unchanged. -/
theorem quoteChar_path (c : Char) (h : isPathChar c = true) :
    (c = '/' → quoteChar c = ("%2F".data)) ∧ (c ≠ '/' → quoteChar c = [c]) := by
  constructor
  · rintro rfl
    decide
  · intro hne
    simp only [isPathChar, Bool.or_eq_true, decide_eq_true_eq] at h
    rcases h with ((((ha | hd) | h1) | h2) | h3) | h4
    · exact if_pos (Or.inl ha)
    · exact if_pos (Or.inr (Or.inl hd))
    · subst h1; decide
    · subst h2; decide
    · subst h3; decide
    · exact absurd h4 hne

/-- Every digit is in the path charset. -/
theorem isPathChar_of_digit (c : Char) (h : c.isDigit = true) :
    isPathChar c = true := by
  simp [isPathChar, h]

/-- C2: the two identifier encoders implement the same rule; empty or
whitespace-only input fails; an all-digit trimmed identifier is returned
unchanged; a trimmed identifier over the path charset is percent-encoded
character by character, with `/` becoming `%2F` and every other charset
character kept; any character outside the charset makes encoding fail, in
particular for `""`, `"   "`, `"group/project; rm -rf /"` and
`"group/project$(whoami)"`. -/
theorem c2_encoder (s : List Char) :
    ((encode_project_id s).toOption = (encode_group_id s).toOption) ∧
    (pyStrip s = [] → ∃ m, encode_project_id s = .error m) ∧
    (pyStrip s ≠ [] → (pyStrip s).all Char.isDigit →
      encode_project_id s = .ok (pyStrip s)) ∧
    (pyStrip s ≠ [] → (pyStrip s).all isPathChar →
      encode_project_id s = .ok ((pyStrip s).flatMap quoteChar) ∧
      ∀ c ∈ pyStrip s, (c = '/' → quoteChar c = ("%2F".data)) ∧
        (c ≠ '/' → quoteChar c = [c])) ∧
    (pyStrip s ≠ [] → ¬ (pyStrip s).all isPathChar = true →
      ∃ m, encode_project_id s = .error m) ∧
    (∃ m, encode_project_id [] = .error m) ∧
    (∃ m, encode_project_id ("   ".data) = .error m) ∧
    (∃ m, encode_project_id ("group/project; rm -rf /".data) = .error m) ∧
    (∃ m, encode_project_id ("group/project$(whoami)".data) = .error m) := by
  refine ⟨?_, ?_, ?_, ?_, ?_, ⟨_, rfl⟩, ⟨_, rfl⟩, ⟨_, rfl⟩, ⟨_, rfl⟩⟩
  · unfold encode_project_id encode_group_id
    by_cases h0 : s = [] ∨ pyStrip s = []
    · simp [h0, Except.toOption]
    · by_cases h1 : (pyStrip s).all Char.isDigit
      · simp [h0, h1]
      · by_cases h2 : (pyStrip s).all isPathChar
        · simp [h0, h1, h2]
        · simp [h0, h1, h2, Except.toOption]
  · intro h
    unfold encode_project_id
    rw [if_pos (Or.inr h)]
    exact ⟨_, rfl⟩
  · intro hne hdig
    have h0 : ¬ (s = [] ∨ pyStrip s = []) := by
      rintro (rfl | h)
      · exact hne rfl
      · exact hne h
    simp [encode_project_id, h0, hdig]
  · intro hne hpath
    have h0 : ¬ (s = [] ∨ pyStrip s = []) := by
      rintro (rfl | h)
      · exact hne rfl
      · exact hne h
    refine ⟨?_, fun c hc => quoteChar_path c (by
      rw [List.all_eq_true] at hpath
      exact hpath c hc)⟩
    by_cases hdig : (pyStrip s).all Char.isDigit
    · have heq := flatMap_quoteChar_digits (pyStrip s) hdig
      simp [encode_project_id, h0, hdig, heq]
    · simp [encode_project_id, h0, hdig, hpath]
  · intro hne hnp
    have h0 : ¬ (s = [] ∨ pyStrip s = []) := by
      rintro (rfl | h)
      · exact hne rfl
      · exact hne h
    have hnd : ¬ (pyStrip s).all Char.isDigit = true := by
      intro hd
      apply hnp
      rw [List.all_eq_true] at hd ⊢
      exact fun c hc => isPathChar_of_digit c (hd c hc)
    simp only [encode_project_id, h0, if_neg, hnd, hnp, if_false]
    exact ⟨_, rfl⟩

/-- C2 (witness): the encoder at a slash path, at a padded numeric ID, and
the explicit value of the percent-encoding. -/
theorem c2_encoder_witness :
    encode_project_id ("group/sub.project".data) =
      .ok ((pyStrip ("group/sub.project".data)).flatMap quoteChar) ∧
    (pyStrip ("group/sub.project".data)).flatMap quoteChar =
      ("group%2Fsub.project".data) ∧
    encode_project_id ("  123  ".data) = .ok (pyStrip ("  123  ".data)) ∧
    (∃ m, encode_project_id ("group/project$(whoami)".data) = .error m) :=
  ⟨((c2_encoder ("group/sub.project".data)).2.2.2.1 (by decide) (by decide)).1,
   by decide,
   (c2_encoder ("  123  ".data)).2.2.1 (by decide) (by decide),
   (c2_encoder ("group/project$(whoami)".data)).2.2.2.2.2.2.2.2⟩
